import Mathlib

/-!
Verification of the MNEE Pay checkout widget core: pricing engine, cart
store, checkout session lifecycle and the payment-confirmation flow.
All definitions are shallow embeddings of the TypeScript source, with JS
numbers modelled as exact rationals, JS object maps as association lists,
and JS truthiness made explicit where the source branches on it.
-/

namespace MneePay

/-- Character-list prefix test, used to define substring containment. -/
def isPrefixChars : List Char → List Char → Bool
  | [], _ => true
  | _ :: _, [] => false
  | a :: as, b :: bs => a == b && isPrefixChars as bs

/-- Character-list substring containment. -/
def containsChars (pat : List Char) : List Char → Bool
  | [] => isPrefixChars pat []
  | b :: bs => isPrefixChars pat (b :: bs) || containsChars pat bs

/-- Model of JavaScript `String.prototype.includes`. -/
def strIncludes (s pat : String) : Bool :=
  containsChars pat.toList s.toList

/-- Model of JS `Math.round(x * 100) / 100` (round half toward positive
infinity, to 2 decimal places), computed over exact rationals.
`Rat.floor` is used so the definition evaluates inside the kernel. -/
def round2 (q : ℚ) : ℚ :=
  ((Rat.floor (q * 100 + 1 / 2) : ℤ) : ℚ) / 100

/-- Runtime value stored in a `customFields` form-data map entry
(string for select/radio/text inputs, boolean for checkboxes). -/
inductive FieldValue where
  | str (s : String)
  | boolean (b : Bool)
deriving DecidableEq, Repr

/-- JS truthiness of a field value (empty string and false are falsy). -/
def FieldValue.truthy : FieldValue → Bool
  | .str s => !(s == "")
  | .boolean b => b

/-- JS truthiness of a possibly-absent field value (undefined is falsy). -/
def optValueTruthy : Option FieldValue → Bool
  | none => false
  | some v => v.truthy

/-- Option entry of a select/radio custom field (types.ts FieldOption). -/
structure FieldOption where
  label : String
  value : String
  price : Option ℚ
deriving DecidableEq, Repr

/-- Field kinds of the widget's custom-field schema (types.ts FieldType). -/
inductive FieldType where
  | text
  | email
  | number
  | tel
  | select
  | radio
  | checkbox
  | textarea
  | address
deriving DecidableEq, Repr

/-- Custom-field schema entry (types.ts CustomField); only the members
read by the pricing engine are carried. `fieldType` embeds the source's
`type` member, which is a reserved word in Lean. -/
structure CustomField where
  id : String
  fieldType : FieldType
  label : String
  options : Option (List FieldOption)
  price : Option ℚ
deriving DecidableEq, Repr

/-- Property lookup on a JS object modelled as an association list
(first binding wins, absent key gives undefined). -/
def lookupField (selections : List (String × FieldValue)) (id : String) :
    Option FieldValue :=
  (selections.find? (fun p => p.fst == id)).map Prod.snd

/-- Contribution of one schema field to the options total, following one
iteration of the `customFields.forEach` body in pricing.ts
`calculateOptionsTotal`: checkbox fields add their own price when the
selection and the price are truthy; select/radio fields add the price of
the option whose `value` strictly equals the selected value; all other
field kinds and all unmatched lookups contribute 0. -/
def fieldContribution (selections : List (String × FieldValue))
    (field : CustomField) : ℚ :=
  if field.fieldType = .checkbox then
    match lookupField selections field.id, field.price with
    | some v, some p => if v.truthy && !(p == 0) then p else 0
    | _, _ => 0
  else if field.fieldType ≠ .select ∧ field.fieldType ≠ .radio then 0
  else
    match field.options with
    | none => 0
    | some opts =>
      match lookupField selections field.id with
      | none => 0
      | some v =>
        if !v.truthy then 0
        else
          match opts.find? (fun opt => FieldValue.str opt.value == v) with
          | some opt =>
            match opt.price with
            | some p => if !(p == 0) then p else 0
            | none => 0
          | none => 0

/-- pricing.ts `calculateOptionsTotal(customFields, formData)`: sum of the
per-field contributions over the schema; `selections` stands for
`formData.customFields`. -/
def calculateOptionsTotal (customFields : Option (List CustomField))
    (selections : List (String × FieldValue)) : ℚ :=
  match customFields with
  | none => 0
  | some fields =>
    if fields.isEmpty then 0
    else (fields.map (fieldContribution selections)).sum

/-- Cart line item (types.ts CartItem), restricted to the members used by
the cart store and totals computation. JS numbers are exact rationals. -/
structure CartItem where
  id : String
  productName : String
  baseAmount : ℚ
  quantity : ℚ
  optionsTotal : ℚ
  taxRate : Option ℚ
  shippingCost : Option ℚ
  freeShippingThreshold : Option ℚ
deriving DecidableEq, Repr

/-- Per-line subtotal `(item.baseAmount + item.optionsTotal) * item.quantity`. -/
def lineSubtotal (i : CartItem) : ℚ :=
  (i.baseAmount + i.optionsTotal) * i.quantity

/-- Per-line tax from cartSlice.ts getCartTotal:
`Math.round(itemSubtotal * (item.taxRate || 0) * 100) / 100`. -/
def itemTaxOf (i : CartItem) : ℚ :=
  round2 (lineSubtotal i * i.taxRate.getD 0)

/-- Per-line shipping from cartSlice.ts getCartTotal. The source guards on
JS truthiness: `if (item.shippingCost && item.shippingCost > 0)`, then
`if (item.freeShippingThreshold && itemSubtotal >= item.freeShippingThreshold)`,
so a shipping cost of 0/undefined charges nothing and a
`freeShippingThreshold` of 0/undefined never waives shipping. -/
def itemShippingOf (i : CartItem) : ℚ :=
  match i.shippingCost with
  | none => 0
  | some c =>
    if !(c == 0) && decide (c > 0) then
      match i.freeShippingThreshold with
      | none => c
      | some t => if !(t == 0) && decide (lineSubtotal i ≥ t) then 0 else c
    else 0

/-- One row of the `itemBreakdown` array built by getCartTotal. -/
structure ItemBreakdown where
  itemId : String
  itemSubtotal : ℚ
  itemTax : ℚ
  itemShipping : ℚ
  itemTotal : ℚ
deriving DecidableEq, Repr

/-- Result record of getCartTotal. -/
structure CartTotals where
  subtotal : ℚ
  tax : ℚ
  shipping : ℚ
  total : ℚ
  itemBreakdown : List ItemBreakdown
deriving DecidableEq, Repr

/-- Loop accumulator of getCartTotal (the three running totals and the
breakdown array). -/
structure TotalsAcc where
  totalSubtotal : ℚ
  totalTax : ℚ
  totalShipping : ℚ
  itemBreakdown : List ItemBreakdown
deriving DecidableEq, Repr

/-- One iteration of the `for (const item of items)` loop in getCartTotal:
the raw line subtotal and the per-line rounded tax and shipping are added
to the running totals, and a breakdown row (re-rounded for display) is
appended. -/
def totalsStep (acc : TotalsAcc) (item : CartItem) : TotalsAcc :=
  let itemSubtotal := lineSubtotal item
  let itemTax := itemTaxOf item
  let itemShipping := itemShippingOf item
  let itemTotal := round2 (itemSubtotal + itemTax + itemShipping)
  { totalSubtotal := acc.totalSubtotal + itemSubtotal
    totalTax := acc.totalTax + itemTax
    totalShipping := acc.totalShipping + itemShipping
    itemBreakdown := acc.itemBreakdown ++
      [{ itemId := item.id
         itemSubtotal := round2 itemSubtotal
         itemTax := itemTax
         itemShipping := round2 itemShipping
         itemTotal := itemTotal }] }

/-- cartSlice.ts getCartTotal (identical in CartContext.tsx): runs the
accumulation loop and rounds each aggregate once more at the end. -/
def getCartTotal (items : List CartItem) : CartTotals :=
  let acc := items.foldl totalsStep ⟨0, 0, 0, []⟩
  { subtotal := round2 acc.totalSubtotal
    tax := round2 acc.totalTax
    shipping := round2 acc.totalShipping
    total := round2 (acc.totalSubtotal + acc.totalTax + acc.totalShipping)
    itemBreakdown := acc.itemBreakdown }

/-- Cart store state (items plus the two derived aggregates). -/
structure CartState where
  items : List CartItem
  itemCount : ℚ
  subtotal : ℚ
deriving DecidableEq, Repr

/-- cartSlice.ts initialCartState. -/
def initialCartState : CartState := ⟨[], 0, 0⟩

/-- Recomputation `items.reduce((sum, i) => sum + i.quantity, 0)`. -/
def recomputeCount (items : List CartItem) : ℚ :=
  (items.map CartItem.quantity).sum

/-- Recomputation
`items.reduce((sum, i) => sum + (i.baseAmount + i.optionsTotal) * i.quantity, 0)`. -/
def recomputeSubtotal (items : List CartItem) : ℚ :=
  (items.map lineSubtotal).sum

/-- cartSlice.ts addToCart: push the new item (its id is generated at the
call site and passed in here) and recompute both aggregates. -/
def addToCart (newItem : CartItem) (s : CartState) : CartState :=
  let items := s.items ++ [newItem]
  ⟨items, recomputeCount items, recomputeSubtotal items⟩

/-- cartSlice.ts removeFromCart: filter the item out and recompute. -/
def removeFromCart (itemId : String) (s : CartState) : CartState :=
  let items := s.items.filter (fun i => !(i.id == itemId))
  ⟨items, recomputeCount items, recomputeSubtotal items⟩

/-- Mutation of the first item with the given id, as done through
`items.find` in cartSlice.ts updateQuantity. -/
def setQuantityFirst (itemId : String) (q : ℚ) :
    List CartItem → List CartItem
  | [] => []
  | i :: rest =>
    if i.id == itemId then { i with quantity := q } :: rest
    else i :: setQuantityFirst itemId q rest

/-- cartSlice.ts updateQuantity: no-op when the requested quantity is
below 1, otherwise update the found item and recompute both aggregates. -/
def updateQuantity (itemId : String) (q : ℚ) (s : CartState) : CartState :=
  if q < 1 then s
  else
    let items := setQuantityFirst itemId q s.items
    ⟨items, recomputeCount items, recomputeSubtotal items⟩

/-- cartSlice.ts clearCart: reset to the initial state. -/
def clearCart (_s : CartState) : CartState := initialCartState

/-- Cart states reachable from the initial state through the four store
mutations. -/
inductive CartReachable : CartState → Prop where
  | init : CartReachable initialCartState
  | add (item : CartItem) {s : CartState} :
      CartReachable s → CartReachable (addToCart item s)
  | remove (itemId : String) {s : CartState} :
      CartReachable s → CartReachable (removeFromCart itemId s)
  | update (itemId : String) (q : ℚ) {s : CartState} :
      CartReachable s → CartReachable (updateQuantity itemId q s)
  | clear {s : CartState} :
      CartReachable s → CartReachable (clearCart s)

/-- Consistency of the derived cart aggregates with the item list. -/
def CartInv (s : CartState) : Prop :=
  s.itemCount = recomputeCount s.items ∧
  s.subtotal = recomputeSubtotal s.items

instance (s : CartState) : Decidable (CartInv s) := by
  unfold CartInv; infer_instance

/-- JS truthiness of a possibly-absent string (undefined and "" falsy). -/
def optStrTruthy : Option String → Bool
  | none => false
  | some s => !(s == "")

/-- Checkout step union type (types.ts CheckoutState.step). -/
inductive Step where
  | initial
  | creatingSession
  | calculatingTotals
  | collecting
  | cart
  | selectingPaymentMethod
  | connecting
  | confirming
  | processing
  | complete
  | error
deriving DecidableEq, Repr

/-- Shipping address (types.ts ShippingAddress). -/
structure ShippingAddress where
  firstName : String
  lastName : String
  address1 : String
  address2 : Option String
  city : String
  state : String
  postalCode : String
  country : String
  phone : Option String
deriving DecidableEq, Repr

/-- Contact info held by the user-info store slice. -/
structure ContactInfo where
  email : Option String
  phone : Option String
deriving DecidableEq, Repr

/-- Form data held by CheckoutContext (the runtime object written by
`updateFormData` and read by `resetCheckout`: custom fields plus the
contact, shipping, quantity and donation-amount entries). -/
structure CheckoutFormData where
  customFields : List (String × FieldValue)
  quantity : Option ℚ
  donationAmount : Option ℚ
  email : Option String
  shipping : Option ShippingAddress
  contact : Option ContactInfo
deriving DecidableEq, Repr

/-- CheckoutContext initialFormData. -/
def initialFormData : CheckoutFormData :=
  ⟨[], none, none, none, none, none⟩

/-- Server-issued checkout session (types.ts CheckoutSession); `expiresAt`
is an epoch timestamp in milliseconds. -/
structure CheckoutSession where
  sessionToken : String
  sessionId : String
  depositAddress : String
  mneeDepositAddress : String
  expiresAt : ℤ
  mneeAmount : ℚ
deriving DecidableEq, Repr

/-- Wallet provider union (types.ts WalletProvider). -/
inductive WalletProviderKind where
  | rainbowkit
  | yours
  | walletconnect
deriving DecidableEq, Repr

/-- Terminal success artifact (types.ts PaymentResult); `fromAddress` and
`toAddress` embed the source's `from`/`to` members. -/
structure PaymentResult where
  transactionHash : String
  amount : ℚ
  currency : String
  fromAddress : String
  toAddress : String
  timestamp : ℕ
  networkId : ℕ
  sessionId : String
deriving DecidableEq, Repr

/-- Default payment method id (constants/payment-methods.ts). -/
def defaultPaymentMethodId : String := "default"

/-- Checkout state held by CheckoutContext (types.ts CheckoutState).
The field-keyed error map is an association list. -/
structure CheckoutState where
  step : Step
  formData : CheckoutFormData
  errors : List (String × String)
  walletAddress : Option String
  walletProvider : Option WalletProviderKind
  paymentResult : Option PaymentResult
  session : Option CheckoutSession
  selectedPaymentMethod : String
deriving DecidableEq, Repr

/-- CheckoutContext initialState. -/
def initialCheckoutState : CheckoutState :=
  { step := .initial
    formData := initialFormData
    errors := []
    walletAddress := none
    walletProvider := none
    paymentResult := none
    session := none
    selectedPaymentMethod := defaultPaymentMethodId }

/-- CheckoutContext provider instance: the React state together with the
`isCreatingSession` ref used as the session-creation in-flight guard. -/
structure CheckoutMachine where
  state : CheckoutState
  isCreatingSession : Bool
deriving DecidableEq, Repr

/-- Synchronous prefix of CheckoutContext `createSession`, up to the point
where the network request is issued: when the in-flight flag is already
set the call returns at once (no request, no state change, second
component false); otherwise the flag is set and the request goes out
(second component true). -/
def createSessionStart (m : CheckoutMachine) : CheckoutMachine × Bool :=
  if m.isCreatingSession then (m, false)
  else ({ m with isCreatingSession := true }, true)

/-- Resolution suffix of CheckoutContext `createSession`: on success the
session from the response is stored; on failure the error map is replaced
by a single session-keyed entry and the error is re-thrown to the caller.
Either way the `finally` block clears the in-flight flag. -/
def createSessionSettle (result : Except String CheckoutSession)
    (m : CheckoutMachine) : CheckoutMachine :=
  match result with
  | .ok sess =>
    { state := { m.state with session := some sess }
      isCreatingSession := false }
  | .error msg =>
    { state := { m.state with errors := [("session", msg)] }
      isCreatingSession := false }

/-- CheckoutContext `clearSession`: resets the in-flight flag and drops
the session. -/
def clearSession (m : CheckoutMachine) : CheckoutMachine :=
  { state := { m.state with session := none }
    isCreatingSession := false }

/-- CheckoutContext `resetCheckout`: back to the initial step with the
error map emptied, the full curated form data copied over, the wallet
connection kept, and session/payment result dropped. -/
def resetCheckout (s : CheckoutState) : CheckoutState :=
  { step := .initial
    errors := []
    selectedPaymentMethod := defaultPaymentMethodId
    formData :=
      { email := s.formData.email
        customFields := s.formData.customFields
        shipping := s.formData.shipping
        contact := s.formData.contact
        quantity := s.formData.quantity
        donationAmount := s.formData.donationAmount }
    walletAddress := s.walletAddress
    walletProvider := s.walletProvider
    session := none
    paymentResult := none }

/-- Form data shape of the zustand store (store/types.ts CheckoutFormData:
custom fields, quantity and donation amount only; contact and shipping
live in the user slice). -/
structure SliceFormData where
  customFields : List (String × FieldValue)
  quantity : Option ℚ
  donationAmount : Option ℚ
deriving DecidableEq, Repr

/-- Checkout slice state (store/types.ts CheckoutSliceState). -/
structure SliceCheckoutState where
  step : Step
  formData : SliceFormData
  errors : List (String × String)
  selectedPaymentMethod : String
  isCreatingSession : Bool
  session : Option CheckoutSession
  paymentResult : Option PaymentResult
deriving DecidableEq, Repr

/-- cartSlice.ts (checkout slice) initialCheckoutState. -/
def initialSliceCheckoutState : SliceCheckoutState :=
  { step := .initial
    formData := ⟨[], none, none⟩
    errors := []
    selectedPaymentMethod := defaultPaymentMethodId
    isCreatingSession := false
    session := none
    paymentResult := none }

/-- User-info slice state (store/types.ts UserState). -/
structure UserState where
  shipping : Option ShippingAddress
  contact : ContactInfo
deriving DecidableEq, Repr

/-- Wallet slice state, restricted to the connection members. -/
structure StoreWalletState where
  isConnected : Bool
  address : Option String
  provider : Option WalletProviderKind
deriving DecidableEq, Repr

/-- Button configuration members consulted by the slice createSession. -/
structure ButtonConfig where
  id : String
  collectEmail : Bool
  collectPhone : Bool
  collectShipping : Bool
deriving DecidableEq, Repr

/-- Config slice state members consulted by the slice createSession. -/
structure ConfigState where
  apiBaseUrl : String
  buttonConfig : Option ButtonConfig
deriving DecidableEq, Repr

/-- Combined zustand store state (store/types.ts StoreState), restricted
to the slices the verified operations touch. -/
structure StoreState where
  user : UserState
  wallet : StoreWalletState
  checkout : SliceCheckoutState
  config : ConfigState
deriving DecidableEq, Repr

/-- Overwrite of one key in a field-keyed error map, as done by the
object spread `{ ...errors, key: msg }`. -/
def setError (key msg : String) (errors : List (String × String)) :
    List (String × String) :=
  errors.filter (fun p => !(p.fst == key)) ++ [(key, msg)]

/-- Deletion of one key from a field-keyed error map. -/
def removeError (key : String) (errors : List (String × String)) :
    List (String × String) :=
  errors.filter (fun p => !(p.fst == key))

/-- cartSlice.ts (checkout slice) resetCheckout: the checkout sub-state is
replaced by the initial state except that custom fields, quantity and
donation amount are copied from the pre-reset form data; the user, wallet
and config slices are untouched. -/
def sliceResetCheckout (s : StoreState) : StoreState :=
  { s with checkout :=
      { initialSliceCheckoutState with formData :=
          { customFields := s.checkout.formData.customFields
            quantity := s.checkout.formData.quantity
            donationAmount := s.checkout.formData.donationAmount } } }

/-- cartSlice.ts (checkout slice) clearSession: clears both the in-flight
flag and the stored session. -/
def sliceClearSession (s : StoreState) : StoreState :=
  { s with checkout :=
      { s.checkout with isCreatingSession := false, session := none } }

/-- Outcome of the synchronous prefix of the slice createSession. -/
inductive SliceCreateStart where
  | noop
  | threw (msg : String) (s : StoreState)
  | callIssued (s : StoreState)
deriving DecidableEq, Repr

/-- The `set` call at the top of the slice createSession, which raises
the in-flight flag. -/
def sliceSetCreatingFlag (s : StoreState) : StoreState :=
  { s with checkout := { s.checkout with isCreatingSession := true } }

/-- Synchronous prefix of cartSlice.ts (checkout slice) createSession, up
to the network request: the in-flight guard returns silently; otherwise
the flag is set and the config and collected-customer-info preconditions
are checked in source order, each throwing outside the try/finally block
(so a precondition throw leaves the flag set); when all pass, the request
goes out. -/
def sliceCreateSessionStart (s : StoreState) : SliceCreateStart :=
  if s.checkout.isCreatingSession then .noop
  else
    if (sliceSetCreatingFlag s).config.apiBaseUrl = "" then
      .threw "API Base URL is not set" (sliceSetCreatingFlag s)
    else
      match (sliceSetCreatingFlag s).config.buttonConfig with
      | none => .threw "Button Config is not set" (sliceSetCreatingFlag s)
      | some bc =>
        if bc.id = "" then
          .threw "Button ID is not set" (sliceSetCreatingFlag s)
        else if bc.collectEmail &&
            !optStrTruthy (sliceSetCreatingFlag s).user.contact.email then
          .threw "Email is required" (sliceSetCreatingFlag s)
        else if bc.collectPhone &&
            !optStrTruthy (sliceSetCreatingFlag s).user.contact.phone then
          .threw "Phone is required" (sliceSetCreatingFlag s)
        else if bc.collectShipping &&
            (sliceSetCreatingFlag s).user.shipping.isNone then
          .threw "Shipping address is required" (sliceSetCreatingFlag s)
        else .callIssued (sliceSetCreatingFlag s)

/-- Resolution suffix of the slice createSession: on success the session
is stored and any session-keyed error removed; on failure the error map
gains a session-keyed entry and the error is re-thrown; the `finally`
block clears the in-flight flag in both cases. -/
def sliceCreateSessionSettle (result : Except String CheckoutSession)
    (s : StoreState) : StoreState :=
  match result with
  | .ok sess =>
    { s with checkout :=
        { s.checkout with
            session := some sess
            errors := removeError "session" s.checkout.errors
            isCreatingSession := false } }
  | .error msg =>
    { s with checkout :=
        { s.checkout with
            errors := setError "session" msg s.checkout.errors
            isCreatingSession := false } }

/-- lib/payment.ts `parsePaymentError`: normalises raw wallet/provider
error messages by substring matching, falling back to the first 100
characters of the raw message. -/
def parsePaymentError (errorMessage : String) : String :=
  if strIncludes errorMessage "User rejected" ||
      strIncludes errorMessage "User denied" ||
      strIncludes errorMessage "user rejected" then
    "Transaction was cancelled"
  else if strIncludes errorMessage "insufficient funds" ||
      strIncludes errorMessage "insufficient balance" then
    "Insufficient balance to complete transaction"
  else if strIncludes errorMessage "gas required exceeds" then
    "Transaction would likely fail - please check your balance and try again"
  else if strIncludes errorMessage "network" ||
      strIncludes errorMessage "connection" then
    "Network error - please check your connection and try again"
  else if strIncludes errorMessage "execution reverted" then
    "Transaction failed - the contract rejected the transfer"
  else errorMessage.take 100

/-- User-rejection classification used by PaymentConfirmation on a parsed
error message:
`errorMsg.includes("cancelled") || errorMsg.includes("rejected") || errorMsg.includes("denied")`. -/
def isUserRejectionMsg (msg : String) : Bool :=
  strIncludes msg "cancelled" || strIncludes msg "rejected" ||
    strIncludes msg "denied"

/-- Confirmation-progress record shown during polling. -/
structure ConfProgress where
  confirmations : ℕ
  requiredConfirmations : ℕ
  progress : String
  percentComplete : ℚ
deriving DecidableEq, Repr

/-- State of the PaymentConfirmation component together with the checkout
context values it writes and an audit log of the outbound effects
(completeSession requests, merchant onSuccess/onError callbacks, polling
loops started). The `processed` list embeds the `processedTxHashes` ref. -/
structure PCState where
  step : Step
  isProcessing : Bool
  errorMessage : Option String
  showTokenSelector : Bool
  processed : List String
  txHash : Option String
  confirmationProgress : Option ConfProgress
  session : Option CheckoutSession
  paymentResult : Option PaymentResult
  walletAddress : Option String
  userAddress : Option String
  walletProvider : Option WalletProviderKind
  completeCalls : List String
  successCalls : List String
  errorCalls : ℕ
  pollStarts : List String
deriving DecidableEq, Repr

/-- Catch branch of PaymentConfirmation `handlePayment`: parse the error,
and either return to `confirming` with the token selector re-shown for
non-Yours providers (user rejection, merchant onError not called), or move
to `error` and notify the merchant. -/
def handlePaymentCatch (raw : String) (s : PCState) : PCState :=
  let errorMsg := parsePaymentError raw
  if isUserRejectionMsg errorMsg then
    { s with step := .confirming
             showTokenSelector := !(s.walletProvider == some .yours)
             errorMessage := none
             isProcessing := false }
  else
    { s with errorMessage := some errorMsg
             step := .error
             errorCalls := s.errorCalls + 1
             isProcessing := false }

/-- PaymentConfirmation effect watching wagmi `writeError`: it only acts
while the step is `processing`; a parsed message classified as user
rejection returns to `confirming` with the token selector re-shown and no
merchant onError call, anything else moves to `error` and calls onError. -/
def writeErrorEffect (writeError : Option String) (s : PCState) : PCState :=
  match writeError with
  | none => s
  | some raw =>
    if s.step ≠ .processing then s
    else
      let errorMsg := parsePaymentError raw
      if isUserRejectionMsg errorMsg then
        { s with step := .confirming
                 showTokenSelector := true
                 errorMessage := none
                 isProcessing := false }
      else
        { s with errorMessage := some errorMsg
                 step := .error
                 errorCalls := s.errorCalls + 1
                 isProcessing := false }

/-- Resolution of the Yours wallet `sendMNEE` call: it either resolves
(with or without a transaction id) or throws. -/
inductive SendMneeResult where
  | resolved (txid : Option String)
  | threw (msg : String)
deriving DecidableEq, Repr

/-- JS `a || b` on two possibly-absent strings (used for
`userAddress || walletAddress`). -/
def orStr (a b : Option String) : Option String :=
  match a with
  | some x => if x = "" then b else some x
  | none => b

/-- PaymentConfirmation `handlePayment` specialised to the Yours wallet
(direct MNEE transfer) branch. Guards reject a missing wallet or session
via onError without state change; then the step moves to `processing`,
the transfer is submitted, and a resolution without a transaction id
(user cancelled in the wallet UI) returns to `confirming` with nothing
else done. With a transaction id, completeSession runs, the payment
result is stored, the success callback fires under the processed-hash
guard, and confirmation polling starts. Thrown errors fall into the catch
branch. -/
def handlePaymentYours (walletFound : Bool) (send : SendMneeResult)
    (completeResult : Except String Unit) (now : ℕ) (s : PCState) :
    PCState :=
  if !optStrTruthy s.walletAddress && !optStrTruthy s.userAddress then
    { s with errorCalls := s.errorCalls + 1 }
  else
    match s.session with
    | none => { s with errorCalls := s.errorCalls + 1 }
    | some sess =>
      let s1 : PCState :=
        { s with isProcessing := true, step := .processing,
                 errorMessage := none }
      if !walletFound then handlePaymentCatch "Yours Wallet not found" s1
      else
        match send with
        | .threw msg => handlePaymentCatch msg s1
        | .resolved txid =>
          if !optStrTruthy txid then
            { s1 with step := .confirming, isProcessing := false }
          else
            let t := txid.getD ""
            let s2 : PCState :=
              { s1 with completeCalls := s1.completeCalls ++ [t] }
            match completeResult with
            | .error msg => handlePaymentCatch msg s2
            | .ok _ =>
              let result : PaymentResult :=
                { transactionHash := t
                  amount := sess.mneeAmount
                  currency := "MNEE"
                  fromAddress := (s.walletAddress.getD "")
                  toAddress := sess.mneeDepositAddress
                  timestamp := now
                  networkId := 0
                  sessionId := sess.sessionId }
              let s3 : PCState :=
                { s2 with paymentResult := some result, txHash := some t }
              let s4 : PCState :=
                if t ∈ s3.processed then s3
                else { s3 with processed := t :: s3.processed
                               successCalls := s3.successCalls ++ [t] }
              { s4 with pollStarts := s4.pollStarts ++ [t]
                        isProcessing := false }

/-- PaymentConfirmation effect watching the EVM transaction receipt: it
acts only once the receipt is confirmed and hash, selected token, selected
chain and session are all present; a hash already in the processed set is
skipped entirely; otherwise the hash is recorded, completeSession runs,
the payment result is stored, the success callback fires and polling
starts — or, when completeSession throws, the step moves to `error` and
the merchant onError is called. -/
def evmConfirmationEffect (isConfirmed : Bool) (hash : Option String)
    (selectedToken : Option String) (selectedChainId : Option ℕ)
    (completeResult : Except String Unit) (now : ℕ) (s : PCState) :
    PCState :=
  match hash, selectedToken, selectedChainId, s.session with
  | some h, some tok, some chain, some sess =>
    if !isConfirmed || h = "" || tok = "" || chain = 0 then s
    else if h ∈ s.processed then s
    else
      let s1 : PCState :=
        { s with processed := h :: s.processed
                 completeCalls := s.completeCalls ++ [h] }
      match completeResult with
      | .ok _ =>
        let result : PaymentResult :=
          { transactionHash := h
            amount := sess.mneeAmount
            currency := tok
            fromAddress := (orStr s.userAddress s.walletAddress).getD ""
            toAddress := sess.depositAddress
            timestamp := now
            networkId := chain
            sessionId := sess.sessionId }
        { s1 with paymentResult := some result
                  successCalls := s1.successCalls ++ [h]
                  pollStarts := s1.pollStarts ++ [h]
                  isProcessing := false }
      | .error msg =>
        let shown :=
          if msg = "" then
            "Payment succeeded but order creation failed. Transaction ID: "
              ++ h
          else msg
        { s1 with errorMessage := some shown
                  step := .error
                  errorCalls := s1.errorCalls + 1
                  isProcessing := false }
  | _, _, _, _ => s

/-- Response of `getTransactionStatus` as consumed by the polling loop
(lib/api.ts); optional members are absent when the hash is not yet
indexed. -/
structure TxStatus where
  found : Bool
  confirmations : Option ℕ
  requiredConfirmations : Option ℕ
  isConfirmed : Option Bool
  progress : Option String
  percentComplete : Option ℚ
deriving DecidableEq, Repr

/-- Resolution of one `getTransactionStatus` network call: a status
response or a thrown error. -/
inductive PollOutcome where
  | threw (msg : String)
  | ok (st : TxStatus)
deriving DecidableEq, Repr

/-- Whether a poll outcome is a confirmed status (the loop's stopping
condition `status.found` and `status.isConfirmed`). -/
def pollConfirmed : PollOutcome → Bool
  | .threw _ => false
  | .ok st => st.found && st.isConfirmed.getD false

/-- One cycle of the `poll` closure in PaymentConfirmation
`pollConfirmations`: a thrown call changes nothing and reschedules after
3000 ms; a found status updates the progress display and either completes
the checkout (stop, no reschedule) or reschedules after 3000 ms; a
not-found status just reschedules after 3000 ms. The second component is
the delay in milliseconds until the next poll, none when the loop stops. -/
def pollStep (o : PollOutcome) (s : PCState) : PCState × Option ℕ :=
  match o with
  | .threw _ => (s, some 3000)
  | .ok st =>
    if st.found then
      let conf := st.confirmations.getD 0
      let req := st.requiredConfirmations.getD 0
      let prog : ConfProgress :=
        { confirmations := conf
          requiredConfirmations := req
          progress := st.progress.getD (toString conf ++ "/" ++ toString req)
          percentComplete := st.percentComplete.getD 0 }
      let s1 : PCState := { s with confirmationProgress := some prog }
      if st.isConfirmed.getD false then ({ s1 with step := .complete }, none)
      else (s1, some 3000)
    else (s, some 3000)

/-- Run of the polling loop over a finite prefix of network-call
resolutions. The boolean result records whether a further poll is still
scheduled after the prefix (the loop never stops on its own: only a
confirmed status ends it). -/
def pollRun : List PollOutcome → PCState → PCState × Bool
  | [], s => (s, true)
  | o :: rest, s =>
    match pollStep o s with
    | (s1, some _) => pollRun rest s1
    | (s1, none) => (s1, false)

/-! Concrete inputs used by the example conjuncts, counterexamples and
witnesses below. -/

/-- Cart item of the spec's rounding example: line subtotal 19.995 at tax
rate 0.08. -/
def roundingItem : CartItem :=
  ⟨"item-1", "Widget", 19.995, 1, 0, some 0.08, none, none⟩

/-- Cart item whose raw line subtotal (0.005) differs from its rounded
breakdown subtotal (0.01). -/
def tinyItem : CartItem :=
  ⟨"item-2", "Sticker", 0.005, 1, 0, none, none, none⟩

/-- Cart item with a free-shipping threshold of 0, which JS truthiness
treats as unset. -/
def zeroThresholdItem : CartItem :=
  ⟨"item-3", "Mug", 10, 1, 0, none, some 5, some 0⟩

/-- Cart item sitting exactly on its free-shipping threshold
(shippingCost 5.00, threshold 50.00, line subtotal 50.00). -/
def boundaryItem : CartItem :=
  ⟨"item-4", "Poster", 50, 1, 0, none, some 5, some 50⟩

/-- Sample cart item for the cart-invariant witness. -/
def sampleCartItem : CartItem :=
  ⟨"cart-item-1", "Shirt", 19.99, 2, 2, some 0.08, some 5, some 50⟩

/-- Sample select field with a priced option. -/
def sizeField : CustomField :=
  { id := "size"
    fieldType := .select
    label := "Size"
    options := some [⟨"Small", "S", none⟩, ⟨"Large", "L", some 2⟩]
    price := none }

/-- Sample checkbox field with a price modifier. -/
def giftField : CustomField :=
  { id := "gift"
    fieldType := .checkbox
    label := "Gift wrap"
    options := none
    price := some 5 }

/-- Sample selection map choosing the priced option and the checkbox. -/
def demoSelections : List (String × FieldValue) :=
  [("size", .str "L"), ("gift", .boolean true)]

/-- Sample store state for the session-creation witnesses: idle guard,
complete config and no collection requirements. -/
def idleStore : StoreState :=
  { user := ⟨none, ⟨none, none⟩⟩
    wallet := ⟨false, none, none⟩
    checkout := initialSliceCheckoutState
    config := ⟨"https://api.mnee.example", some ⟨"btn_1", false, false, false⟩⟩ }

/-- Store state with an empty API base URL, hitting the precondition
throw of the slice createSession. -/
def badConfigStore : StoreState :=
  { user := ⟨none, ⟨none, none⟩⟩
    wallet := ⟨false, none, none⟩
    checkout := initialSliceCheckoutState
    config := ⟨"", none⟩ }

/-- The store state left behind by the precondition throw: the in-flight
flag is set and nothing clears it. -/
def badConfigStoreAfter : StoreState :=
  { badConfigStore with checkout :=
      { badConfigStore.checkout with isCreatingSession := true } }

/-- Sample server session. -/
def demoSession : CheckoutSession :=
  ⟨"tok_1", "sess_1", "0xdeposit", "1MneeAddr", 1700000000000, 43.98⟩

/-- Sample checkout-context machine holding a filled form, a connected
wallet and a live session. -/
def demoMachine : CheckoutMachine :=
  { state :=
      { step := .confirming
        formData :=
          { customFields := [("size", .str "L")]
            quantity := some 2
            donationAmount := some 10
            email := some "a@b.c"
            shipping := some ⟨"Ada", "L", "1 Main St", none, "town", "ST",
              "00001", "US", none⟩
            contact := some ⟨some "a@b.c", some "5550100"⟩ }
        errors := [("session", "old failure")]
        walletAddress := some "0xabc"
        walletProvider := some .rainbowkit
        paymentResult := none
        session := some demoSession
        selectedPaymentMethod := defaultPaymentMethodId }
    isCreatingSession := false }

/-- Sample PaymentConfirmation state: confirming step, connected EVM
wallet, live session, nothing processed yet. -/
def demoPC : PCState :=
  { step := .confirming
    isProcessing := false
    errorMessage := none
    showTokenSelector := false
    processed := []
    txHash := none
    confirmationProgress := none
    session := some demoSession
    paymentResult := none
    walletAddress := some "0xabc"
    userAddress := some "0xabc"
    walletProvider := some .rainbowkit
    completeCalls := []
    successCalls := []
    errorCalls := 0
    pollStarts := [] }

/-- Sample PaymentConfirmation state in the processing step. -/
def processingPC : PCState :=
  { demoPC with step := .processing, isProcessing := true }

/-- Sample PaymentConfirmation state for the Yours wallet path. -/
def yoursPC : PCState :=
  { demoPC with walletProvider := some .yours, userAddress := none }

/-- Confirmed transaction status as returned once the backend has seen
enough confirmations. -/
def confirmedStatus : TxStatus :=
  ⟨true, some 6, some 6, some true, some "6/6", some 100⟩

/-- Pending transaction status (found, not yet confirmed). -/
def pendingStatus : TxStatus :=
  ⟨true, some 2, some 6, some false, some "2/6", some 33⟩

/-! Theorems. -/

/-- The executable `Rat.floor` in `round2` agrees with the mathematical
floor. -/
theorem round2_eq_floor (q : ℚ) :
    round2 q = ((⌊q * 100 + 1 / 2⌋ : ℤ) : ℚ) / 100 := by
  have h : Rat.floor (q * 100 + 1 / 2) = ⌊q * 100 + 1 / 2⌋ := by
    rw [Rat.floor_def, Rat.floor_def']
  rw [round2, h]

/-- The totals loop accumulates the raw line subtotal, the rounded line
tax and the (possibly waived) line shipping into the three running sums. -/
theorem foldl_totalsStep (items : List CartItem) (acc : TotalsAcc) :
    (items.foldl totalsStep acc).totalSubtotal =
        acc.totalSubtotal + (items.map lineSubtotal).sum ∧
      (items.foldl totalsStep acc).totalTax =
        acc.totalTax + (items.map itemTaxOf).sum ∧
      (items.foldl totalsStep acc).totalShipping =
        acc.totalShipping + (items.map itemShippingOf).sum := by
  induction items generalizing acc with
  | nil => simp
  | cons i rest ih =>
    simp only [List.foldl_cons, List.map_cons, List.sum_cons]
    obtain ⟨h1, h2, h3⟩ := ih (totalsStep acc i)
    refine ⟨?_, ?_, ?_⟩
    · rw [h1]; simp [totalsStep]; ring
    · rw [h2]; simp [totalsStep]; ring
    · rw [h3]; simp [totalsStep]; ring

/-- The aggregate tax is the re-rounded sum of the already-rounded line
taxes, and likewise for the raw-summed subtotal and shipping. -/
theorem getCartTotal_eq (items : List CartItem) :
    (getCartTotal items).subtotal = round2 ((items.map lineSubtotal).sum) ∧
      (getCartTotal items).tax = round2 ((items.map itemTaxOf).sum) ∧
      (getCartTotal items).shipping =
        round2 ((items.map itemShippingOf).sum) := by
  obtain ⟨h1, h2, h3⟩ := foldl_totalsStep items ⟨0, 0, 0, []⟩
  refine ⟨?_, ?_, ?_⟩
  · show round2 (items.foldl totalsStep ⟨0, 0, 0, []⟩).totalSubtotal = _
    rw [h1]; norm_num
  · show round2 (items.foldl totalsStep ⟨0, 0, 0, []⟩).totalTax = _
    rw [h2]; norm_num
  · show round2 (items.foldl totalsStep ⟨0, 0, 0, []⟩).totalShipping = _
    rw [h3]; norm_num

/-- Mutating the cart through any of the four store actions recomputes
both derived aggregates from the item list. -/
theorem cartReachable_inv (s : CartState) (h : CartReachable s) :
    CartInv s := by
  induction h with
  | init => exact ⟨rfl, rfl⟩
  | add item _ _ => exact ⟨rfl, rfl⟩
  | remove itemId _ _ => exact ⟨rfl, rfl⟩
  | update itemId q _ ih =>
    rw [updateQuantity]
    split
    · exact ih
    · exact ⟨rfl, rfl⟩
  | clear _ _ => exact ⟨rfl, rfl⟩

/-- C8: for every reachable cart state, after each cart mutation
(addToCart, removeFromCart, updateQuantity, clearCart) the invariant
holds that itemCount equals the sum of all item quantities and subtotal
equals the sum of (baseAmount + optionsTotal) * quantity over all items,
both recomputed from the item list. -/
theorem c8_cart_invariant (s : CartState) (hs : CartReachable s)
    (item : CartItem) (itemId : String) (q : ℚ) :
    CartInv s ∧
      CartInv (addToCart item s) ∧
      CartInv (removeFromCart itemId s) ∧
      CartInv (updateQuantity itemId q s) ∧
      CartInv (clearCart s) :=
  ⟨cartReachable_inv s hs,
    cartReachable_inv _ (CartReachable.add item hs),
    cartReachable_inv _ (CartReachable.remove itemId hs),
    cartReachable_inv _ (CartReachable.update itemId q hs),
    cartReachable_inv _ (CartReachable.clear hs)⟩

/-- Witness for C8 at a concrete one-item cart. -/
theorem c8_cart_invariant_witness :
    CartInv (addToCart sampleCartItem initialCartState) ∧
      CartInv (updateQuantity "cart-item-1" 3
        (addToCart sampleCartItem initialCartState)) :=
  ⟨(c8_cart_invariant initialCartState CartReachable.init sampleCartItem
      "cart-item-1" 3).2.1,
    (c8_cart_invariant (addToCart sampleCartItem initialCartState)
      (CartReachable.add sampleCartItem CartReachable.init) sampleCartItem
      "cart-item-1" 3).2.2.2.1⟩

/-- Evaluation of the spec's rounding example at the line level. -/
theorem itemTaxOf_roundingItem : itemTaxOf roundingItem = 1.60 := by
  simp only [itemTaxOf, lineSubtotal, roundingItem, Option.getD_some]
  rw [round2_eq_floor]; norm_num

/-- C6 (amended): the aggregate tax is round2 of the sum of the
already-rounded line taxes, where each line tax is
round2(lineSubtotal * taxRate); the aggregate subtotal and shipping are
round2 of the sums of the raw (unrounded) per-line values; and at the
spec's concrete input (two identical items with line subtotal 19.995 and
taxRate 0.08) each line tax is 1.60 and the aggregate tax is
3.20 = round2(1.60 + 1.60). -/
theorem c6_two_stage_rounding :
    (∀ items : List CartItem,
        (getCartTotal items).tax = round2 ((items.map itemTaxOf).sum)) ∧
      (∀ i : CartItem,
        itemTaxOf i = round2 (lineSubtotal i * i.taxRate.getD 0)) ∧
      (∀ items : List CartItem,
        (getCartTotal items).subtotal =
          round2 ((items.map lineSubtotal).sum)) ∧
      (∀ items : List CartItem,
        (getCartTotal items).shipping =
          round2 ((items.map itemShippingOf).sum)) ∧
      lineSubtotal roundingItem = 19.995 ∧
      roundingItem.taxRate = some 0.08 ∧
      itemTaxOf roundingItem = 1.60 ∧
      (getCartTotal [roundingItem, roundingItem]).tax = 3.20 ∧
      round2 ((1.60 : ℚ) + 1.60) = 3.20 := by
  refine ⟨fun items => (getCartTotal_eq items).2.1, fun i => rfl,
    fun items => (getCartTotal_eq items).1,
    fun items => (getCartTotal_eq items).2.2, ?_, rfl, itemTaxOf_roundingItem,
    ?_, ?_⟩
  · simp [lineSubtotal, roundingItem]
  · rw [(getCartTotal_eq [roundingItem, roundingItem]).2.1]
    simp only [List.map_cons, List.map_nil, List.sum_cons, List.sum_nil,
      itemTaxOf_roundingItem]
    rw [round2_eq_floor]; norm_num
  · rw [round2_eq_floor]; norm_num

/-- Counterexample to C6 as stated: the aggregate subtotal is NOT round2
of the sum of the already-rounded line subtotals (the loop sums the raw
line subtotals), and at the spec's own input the aggregate tax is equal
to round2(19.995 * 2 * 0.08), so the claim's "not" clause fails
numerically. -/
theorem c6_counterexample :
    (getCartTotal [tinyItem, tinyItem]).subtotal = 0.01 ∧
      round2 (round2 (lineSubtotal tinyItem) +
        round2 (lineSubtotal tinyItem)) = 0.02 ∧
      (0.01 : ℚ) ≠ 0.02 ∧
      round2 ((19.995 : ℚ) * 2 * 0.08) = 3.20 ∧
      (getCartTotal [roundingItem, roundingItem]).tax =
        round2 ((19.995 : ℚ) * 2 * 0.08) := by
  have hline : lineSubtotal tinyItem = 0.005 := by
    simp [lineSubtotal, tinyItem]
  have hsub : (getCartTotal [tinyItem, tinyItem]).subtotal = 0.01 := by
    rw [(getCartTotal_eq [tinyItem, tinyItem]).1]
    simp only [List.map_cons, List.map_nil, List.sum_cons, List.sum_nil,
      hline]
    rw [round2_eq_floor]; norm_num
  have hrounded : round2 (lineSubtotal tinyItem) = 0.01 := by
    rw [hline, round2_eq_floor]; norm_num
  have htax : (getCartTotal [roundingItem, roundingItem]).tax = 3.20 := by
    rw [(getCartTotal_eq [roundingItem, roundingItem]).2.1]
    simp only [List.map_cons, List.map_nil, List.sum_cons, List.sum_nil,
      itemTaxOf_roundingItem]
    rw [round2_eq_floor]; norm_num
  have hsingle : round2 ((19.995 : ℚ) * 2 * 0.08) = 3.20 := by
    rw [round2_eq_floor]; norm_num
  refine ⟨hsub, ?_, by norm_num, hsingle, by rw [htax, hsingle]⟩
  rw [hrounded, round2_eq_floor]; norm_num

/-- Counterexample to C7 as stated: an item with a freeShippingThreshold
that is set (to 0) and a line subtotal at or above it is still charged
the flat shipping cost, because the source's truthiness guard
`item.freeShippingThreshold && ...` treats a threshold of 0 as unset. -/
theorem c7_counterexample :
    zeroThresholdItem.freeShippingThreshold = some 0 ∧
      zeroThresholdItem.shippingCost = some 5 ∧
      lineSubtotal zeroThresholdItem ≥ 0 ∧
      itemShippingOf zeroThresholdItem = 5 ∧
      (5 : ℚ) ≠ 0 := by
  refine ⟨rfl, rfl, ?_, ?_, by norm_num⟩
  · simp [lineSubtotal, zeroThresholdItem]
  · simp [itemShippingOf, zeroThresholdItem]

/-- C7 (amended): for a positive flat shippingCost, line shipping is 0
exactly when freeShippingThreshold is set to a nonzero value and the line
subtotal is at or above it (the boundary is inclusive); otherwise the
flat shippingCost is charged as-is, not multiplied by quantity; a
threshold of 0 behaves as unset; and an unset or non-positive
shippingCost charges nothing. -/
theorem c7_free_shipping (i : CartItem) (c : ℚ) (hc : i.shippingCost = some c)
    (hpos : 0 < c) :
    (∀ t : ℚ, i.freeShippingThreshold = some t → t ≠ 0 →
        t ≤ lineSubtotal i → itemShippingOf i = 0) ∧
      (∀ t : ℚ, i.freeShippingThreshold = some t → t ≠ 0 →
        lineSubtotal i < t → itemShippingOf i = c) ∧
      (i.freeShippingThreshold = none → itemShippingOf i = c) ∧
      (i.freeShippingThreshold = some 0 → itemShippingOf i = c) ∧
      (∀ j : CartItem, j.shippingCost = none → itemShippingOf j = 0) ∧
      (∀ (j : CartItem) (d : ℚ), j.shippingCost = some d → d ≤ 0 →
        itemShippingOf j = 0) ∧
      itemShippingOf boundaryItem = 0 := by
  have hc0 : ¬ c = 0 := ne_of_gt hpos
  refine ⟨?_, ?_, ?_, ?_, ?_, ?_, ?_⟩
  · intro t ht htz hle
    simp [itemShippingOf, hc, ht, hc0, hpos, htz, hle]
  · intro t ht htz hlt
    simp [itemShippingOf, hc, ht, hc0, hpos, htz, not_le.mpr hlt]
  · intro ht
    simp [itemShippingOf, hc, ht, hc0, hpos]
  · intro ht
    simp [itemShippingOf, hc, ht, hc0, hpos]
  · intro j hj
    simp [itemShippingOf, hj]
  · intro j d hj hd
    rcases eq_or_lt_of_le hd with hd0 | hdneg
    · simp [itemShippingOf, hj, ← hd0]
    · simp [itemShippingOf, hj, not_lt.mpr (le_of_lt hdneg),
        ne_of_lt hdneg]
  · have : lineSubtotal boundaryItem = 50 := by
      simp [lineSubtotal, boundaryItem]
    simp [itemShippingOf, boundaryItem, lineSubtotal]

/-- Witness for C7 at the boundary item (shippingCost 5.00, threshold
50.00, line subtotal 50.00, shipping waived). -/
theorem c7_free_shipping_witness :
    itemShippingOf boundaryItem = 0 ∧ (0 : ℚ) < 5 :=
  ⟨(c7_free_shipping boundaryItem 5 rfl (by decide)).1 50 rfl
      (by decide) (by simp [lineSubtotal, boundaryItem]),
    by decide⟩

/-- Prepending a selection entry whose key differs from the looked-up id
leaves the lookup unchanged. -/
theorem lookupField_cons_ne (k : String) (v : FieldValue)
    (sel : List (String × FieldValue)) (id : String) (h : id ≠ k) :
    lookupField ((k, v) :: sel) id = lookupField sel id := by
  have hk : (k == id) = false := by
    simp [Ne.symm h]
  simp [lookupField, List.find?, hk]

/-- A field's contribution only reads the selection entry at its own id,
so an entry under a different key does not change it. -/
theorem fieldContribution_cons_ne (k : String) (v : FieldValue)
    (sel : List (String × FieldValue)) (f : CustomField) (h : f.id ≠ k) :
    fieldContribution ((k, v) :: sel) f = fieldContribution sel f := by
  unfold fieldContribution
  rw [lookupField_cons_ne k v sel f.id h]

/-- C9: calculateOptionsTotal is invariant under reordering of the schema
fields and under prepending selection entries whose keys match no field
id in the schema; such unknown-key selections are silently ignored (the
function stays total and the result is unchanged). -/
theorem c9_options_total_invariance :
    (∀ (fields₁ fields₂ : List CustomField)
        (sel : List (String × FieldValue)),
        fields₁.Perm fields₂ →
        calculateOptionsTotal (some fields₁) sel =
          calculateOptionsTotal (some fields₂) sel) ∧
      (∀ (fields : List CustomField) (sel : List (String × FieldValue))
        (k : String) (v : FieldValue),
        (∀ f ∈ fields, f.id ≠ k) →
        calculateOptionsTotal (some fields) ((k, v) :: sel) =
          calculateOptionsTotal (some fields) sel) := by
  constructor
  · intro fields₁ fields₂ sel hperm
    have hsum : (fields₁.map (fieldContribution sel)).sum =
        (fields₂.map (fieldContribution sel)).sum :=
      (hperm.map (fieldContribution sel)).sum_eq
    rcases fields₁ with _ | ⟨f, fs⟩
    · have h2 : fields₂ = [] := hperm.nil_eq.symm
      rw [h2]
    · rcases fields₂ with _ | ⟨g, gs⟩
      · exact absurd hperm.symm.nil_eq (by simp)
      · simpa [calculateOptionsTotal] using hsum
  · intro fields sel k v hids
    rcases fields with _ | ⟨f, fs⟩
    · rfl
    · have hmap : (f :: fs).map (fieldContribution ((k, v) :: sel)) =
          (f :: fs).map (fieldContribution sel) := by
        apply List.map_congr_left
        intro g hg
        exact fieldContribution_cons_ne k v sel g (hids g hg)
      simp only [calculateOptionsTotal, List.isEmpty_cons, hmap]

/-- Witness for C9: swapping two concrete schema fields and prepending an
unknown-key selection both leave the total unchanged. -/
theorem c9_options_total_invariance_witness :
    calculateOptionsTotal (some [sizeField, giftField]) demoSelections =
        calculateOptionsTotal (some [giftField, sizeField]) demoSelections ∧
      calculateOptionsTotal (some [sizeField, giftField])
          (("unknown-field", FieldValue.str "x") :: demoSelections) =
        calculateOptionsTotal (some [sizeField, giftField]) demoSelections :=
  ⟨c9_options_total_invariance.1 [sizeField, giftField]
      [giftField, sizeField] demoSelections
      (List.Perm.swap giftField sizeField []),
    c9_options_total_invariance.2 [sizeField, giftField] demoSelections
      "unknown-field" (FieldValue.str "x") (by decide)⟩

/-- C5: after resetCheckout the curated form data (email, shipping,
quantity, donationAmount, customFields — and contact) keeps its pre-reset
values and the wallet connection is unchanged, while the step returns to
initial and session, payment result and errors are cleared. The same
holds of the store-slice resetCheckout for the fields it owns: its form
data keeps customFields, quantity and donationAmount, the user slice
(contact and shipping) and the wallet slice are untouched, and step,
session, payment result and errors are reset. -/
theorem c5_reset_preserves_curated (s : CheckoutState) (t : StoreState) :
    (resetCheckout s).formData.email = s.formData.email ∧
      (resetCheckout s).formData.shipping = s.formData.shipping ∧
      (resetCheckout s).formData.quantity = s.formData.quantity ∧
      (resetCheckout s).formData.donationAmount = s.formData.donationAmount ∧
      (resetCheckout s).formData.customFields = s.formData.customFields ∧
      (resetCheckout s).formData.contact = s.formData.contact ∧
      (resetCheckout s).walletAddress = s.walletAddress ∧
      (resetCheckout s).walletProvider = s.walletProvider ∧
      (resetCheckout s).step = Step.initial ∧
      (resetCheckout s).session = none ∧
      (resetCheckout s).paymentResult = none ∧
      (resetCheckout s).errors = [] ∧
      (sliceResetCheckout t).user = t.user ∧
      (sliceResetCheckout t).wallet = t.wallet ∧
      (sliceResetCheckout t).checkout.formData.customFields =
        t.checkout.formData.customFields ∧
      (sliceResetCheckout t).checkout.formData.quantity =
        t.checkout.formData.quantity ∧
      (sliceResetCheckout t).checkout.formData.donationAmount =
        t.checkout.formData.donationAmount ∧
      (sliceResetCheckout t).checkout.step = Step.initial ∧
      (sliceResetCheckout t).checkout.session = none ∧
      (sliceResetCheckout t).checkout.paymentResult = none ∧
      (sliceResetCheckout t).checkout.errors = [] :=
  ⟨rfl, rfl, rfl, rfl, rfl, rfl, rfl, rfl, rfl, rfl, rfl, rfl, rfl, rfl,
    rfl, rfl, rfl, rfl, rfl, rfl, rfl⟩

/-- Counterexample to C2 as stated: the store-slice createSession sets
the in-flight flag and then throws its precondition errors outside the
try/finally, so a call that settles with such a failure does not clear
the flag; concretely, with an empty API base URL the call throws and the
flag remains set. -/
theorem c2_counterexample :
    badConfigStore.checkout.isCreatingSession = false ∧
      sliceCreateSessionStart badConfigStore =
        SliceCreateStart.threw "API Base URL is not set" badConfigStoreAfter ∧
      badConfigStoreAfter.checkout.isCreatingSession = true := by
  refine ⟨rfl, ?_, rfl⟩
  decide

/-- A precondition throw of the slice createSession always hands back the
state with the in-flight flag set. -/
theorem sliceCreateSessionStart_threw_flag (t t' : StoreState)
    (msg : String)
    (hthrew : sliceCreateSessionStart t = SliceCreateStart.threw msg t') :
    t'.checkout.isCreatingSession = true := by
  have hset : (sliceSetCreatingFlag t).checkout.isCreatingSession = true :=
    rfl
  unfold sliceCreateSessionStart at hthrew
  cases hb : t.checkout.isCreatingSession with
  | true => simp [hb] at hthrew
  | false =>
    rw [if_neg (by simp [hb])] at hthrew
    repeat' split at hthrew
    all_goals
      first
      | (simp only [SliceCreateStart.threw.injEq] at hthrew
         exact hthrew.2 ▸ hset)
      | simp at hthrew

/-- C2 (amended): at most one createSession call is in flight: a call
arriving while the flag is set returns at once with no network request
and no state change; once the network call settles — with success or
failure — the flag is cleared, and clearSession clears it explicitly.
In the store-slice variant the same guard, settle and clearSession
behavior holds, except that a precondition failure (missing API base URL,
button config or required customer info) throws after the flag is set and
before the try/finally, leaving the flag set: from the post-throw state
every further createSession call stays a silent no-op (the flag
persists through them) until clearSession resets it. -/
theorem c2_single_flight_session_creation :
    (∀ m : CheckoutMachine, m.isCreatingSession = true →
        createSessionStart m = (m, false)) ∧
      (∀ m : CheckoutMachine, m.isCreatingSession = false →
        (createSessionStart m).2 = true ∧
        createSessionStart (createSessionStart m).1 =
          ((createSessionStart m).1, false)) ∧
      (∀ (r : Except String CheckoutSession) (m : CheckoutMachine),
        (createSessionSettle r m).isCreatingSession = false) ∧
      (∀ m : CheckoutMachine, (clearSession m).isCreatingSession = false) ∧
      (∀ t : StoreState, t.checkout.isCreatingSession = true →
        sliceCreateSessionStart t = SliceCreateStart.noop) ∧
      (∀ (r : Except String CheckoutSession) (t : StoreState),
        (sliceCreateSessionSettle r t).checkout.isCreatingSession = false) ∧
      (∀ t : StoreState,
        (sliceClearSession t).checkout.isCreatingSession = false) ∧
      (∀ (t t' : StoreState) (msg : String),
        sliceCreateSessionStart t = SliceCreateStart.threw msg t' →
        t'.checkout.isCreatingSession = true ∧
        sliceCreateSessionStart t' = SliceCreateStart.noop ∧
        (sliceClearSession t').checkout.isCreatingSession = false) := by
  refine ⟨?_, ?_, ?_, ?_, ?_, ?_, ?_, ?_⟩
  · intro m hm
    simp [createSessionStart, hm]
  · intro m hm
    constructor
    · simp [createSessionStart, hm]
    · simp [createSessionStart, hm]
  · intro r m
    cases r <;> rfl
  · intro m
    rfl
  · intro t ht
    simp [sliceCreateSessionStart, ht]
  · intro r t
    cases r <;> rfl
  · intro t
    rfl
  · intro t t' msg hthrew
    have hflag := sliceCreateSessionStart_threw_flag t t' msg hthrew
    exact ⟨hflag, by simp [sliceCreateSessionStart, hflag], rfl⟩

/-- Witness for C2: the double-fire and settle behavior at a concrete
idle machine and the guard at a busy one. -/
theorem c2_single_flight_witness :
    (createSessionStart demoMachine).2 = true ∧
      createSessionStart (createSessionStart demoMachine).1 =
        ((createSessionStart demoMachine).1, false) ∧
      createSessionStart { demoMachine with isCreatingSession := true } =
        ({ demoMachine with isCreatingSession := true }, false) ∧
      CheckoutMachine.isCreatingSession
          (createSessionSettle (Except.error "boom") demoMachine) = false ∧
      sliceCreateSessionStart
          { idleStore with checkout :=
              { idleStore.checkout with isCreatingSession := true } } =
        SliceCreateStart.noop ∧
      sliceCreateSessionStart badConfigStoreAfter = SliceCreateStart.noop ∧
      (sliceClearSession badConfigStoreAfter).checkout.isCreatingSession =
        false :=
  ⟨(c2_single_flight_session_creation.2.1 demoMachine rfl).1,
    (c2_single_flight_session_creation.2.1 demoMachine rfl).2,
    c2_single_flight_session_creation.1
      { demoMachine with isCreatingSession := true } rfl,
    c2_single_flight_session_creation.2.2.1 (Except.error "boom")
      demoMachine,
    c2_single_flight_session_creation.2.2.2.2.1
      { idleStore with checkout :=
          { idleStore.checkout with isCreatingSession := true } } rfl,
    (c2_single_flight_session_creation.2.2.2.2.2.2.2 badConfigStore
      badConfigStoreAfter "API Base URL is not set" (by decide)).2.1,
    (c2_single_flight_session_creation.2.2.2.2.2.2.2 badConfigStore
      badConfigStoreAfter "API Base URL is not set" (by decide)).2.2⟩

/-- A hash already in the processed set makes the EVM confirmation effect
a no-op, whatever else the effect observes. -/
theorem evm_effect_processed_noop (s : PCState) (h : String)
    (ic : Bool) (tok : Option String) (chain : Option ℕ)
    (res : Except String Unit) (now : ℕ) (hmem : h ∈ s.processed) :
    evmConfirmationEffect ic (some h) tok chain res now s = s := by
  unfold evmConfirmationEffect
  cases tok with
  | none => cases chain <;> cases hs : s.session <;> rfl
  | some t =>
    cases chain with
    | none => cases hs : s.session <;> rfl
    | some c =>
      cases hs : s.session with
      | none => rfl
      | some sess => simp [hmem]

/-- On a fresh confirmed hash with all guards satisfied and a successful
completeSession, the EVM confirmation effect records the hash, issues one
completeSession call, stores the payment result, fires the success
callback once and starts polling. -/
theorem evm_effect_fresh_ok (s : PCState) (h tok : String)
    (chain now : ℕ) (sess : CheckoutSession) (hsess : s.session = some sess)
    (hh : h ≠ "") (ht : tok ≠ "") (hc : chain ≠ 0)
    (hfresh : h ∉ s.processed) :
    evmConfirmationEffect true (some h) (some tok) (some chain)
        (Except.ok ()) now s =
      { s with
          processed := h :: s.processed
          completeCalls := s.completeCalls ++ [h]
          paymentResult := some
            { transactionHash := h
              amount := sess.mneeAmount
              currency := tok
              fromAddress := (orStr s.userAddress s.walletAddress).getD ""
              toAddress := sess.depositAddress
              timestamp := now
              networkId := chain
              sessionId := sess.sessionId }
          successCalls := s.successCalls ++ [h]
          pollStarts := s.pollStarts ++ [h]
          isProcessing := false } := by
  unfold evmConfirmationEffect
  rw [hsess]
  simp [hh, ht, hc, hfresh]

/-- C1: delivering the same confirmed transaction hash twice through the
EVM confirmation-observer path yields exactly one completeSession call
and exactly one success-callback invocation — the second delivery changes
nothing — and a hash already in the processed set is never reprocessed,
whatever the effect observes. -/
theorem c1_at_most_once_completion (s : PCState) (h tok : String)
    (chain now : ℕ) (sess : CheckoutSession) (hsess : s.session = some sess)
    (hh : h ≠ "") (ht : tok ≠ "") (hc : chain ≠ 0)
    (hfresh : h ∉ s.processed) :
    evmConfirmationEffect true (some h) (some tok) (some chain)
        (Except.ok ()) now
        (evmConfirmationEffect true (some h) (some tok) (some chain)
          (Except.ok ()) now s) =
      evmConfirmationEffect true (some h) (some tok) (some chain)
        (Except.ok ()) now s ∧
    (evmConfirmationEffect true (some h) (some tok) (some chain)
        (Except.ok ()) now s).completeCalls.count h =
      s.completeCalls.count h + 1 ∧
    (evmConfirmationEffect true (some h) (some tok) (some chain)
        (Except.ok ()) now s).successCalls.count h =
      s.successCalls.count h + 1 ∧
    (∀ (s' : PCState) (ic : Bool) (tok' : Option String)
        (chain' : Option ℕ) (res : Except String Unit) (now' : ℕ),
        h ∈ s'.processed →
        evmConfirmationEffect ic (some h) tok' chain' res now' s' = s') := by
  have hstep := evm_effect_fresh_ok s h tok chain now sess hsess hh ht hc
    hfresh
  refine ⟨?_, ?_, ?_, ?_⟩
  · rw [hstep]
    exact evm_effect_processed_noop _ h _ _ _ _ _ (by simp)
  · rw [hstep]
    simp [List.count_append]
  · rw [hstep]
    simp [List.count_append]
  · intro s' ic tok' chain' res now' hmem
    exact evm_effect_processed_noop s' h ic tok' chain' res now' hmem

/-- Witness for C1 at a concrete fresh state and hash. -/
theorem c1_at_most_once_completion_witness :
    evmConfirmationEffect true (some "0xhash1") (some "USDC") (some 1)
        (Except.ok ()) 7
        (evmConfirmationEffect true (some "0xhash1") (some "USDC") (some 1)
          (Except.ok ()) 7 demoPC) =
      evmConfirmationEffect true (some "0xhash1") (some "USDC") (some 1)
        (Except.ok ()) 7 demoPC ∧
    (evmConfirmationEffect true (some "0xhash1") (some "USDC") (some 1)
        (Except.ok ()) 7 demoPC).completeCalls.count "0xhash1" = 1 ∧
    (evmConfirmationEffect true (some "0xhash1") (some "USDC") (some 1)
        (Except.ok ()) 7 demoPC).successCalls.count "0xhash1" = 1 := by
  have hc1 := c1_at_most_once_completion demoPC "0xhash1" "USDC" 1 7
    demoSession rfl (by decide) (by decide) (by decide) (by decide)
  exact ⟨hc1.1, by simpa using hc1.2.1, by simpa using hc1.2.2.1⟩

/-- C3: a transfer failure classified as user rejection while the step is
processing moves the machine back to confirming (not error), re-shows the
token selector (for the multi-chain family in the catch branch,
unconditionally in the EVM writeError effect since that path is
multi-chain only), and does not invoke the merchant onError; any other
failure moves to error and invokes onError. -/
theorem c3_user_rejection_recovers (s : PCState) (raw : String)
    (hstep : s.step = Step.processing) :
    (isUserRejectionMsg (parsePaymentError raw) = true →
      writeErrorEffect (some raw) s =
        { s with step := Step.confirming, showTokenSelector := true,
                 errorMessage := none, isProcessing := false } ∧
      (writeErrorEffect (some raw) s).step = Step.confirming ∧
      (writeErrorEffect (some raw) s).step ≠ Step.error ∧
      (writeErrorEffect (some raw) s).errorCalls = s.errorCalls ∧
      (handlePaymentCatch raw s).step = Step.confirming ∧
      (handlePaymentCatch raw s).errorCalls = s.errorCalls ∧
      (s.walletProvider ≠ some WalletProviderKind.yours →
        (handlePaymentCatch raw s).showTokenSelector = true)) ∧
    (isUserRejectionMsg (parsePaymentError raw) = false →
      (writeErrorEffect (some raw) s).step = Step.error ∧
      (writeErrorEffect (some raw) s).errorCalls = s.errorCalls + 1 ∧
      (writeErrorEffect (some raw) s).errorMessage =
        some (parsePaymentError raw) ∧
      (handlePaymentCatch raw s).step = Step.error ∧
      (handlePaymentCatch raw s).errorCalls = s.errorCalls + 1) := by
  constructor
  · intro hrej
    refine ⟨?_, ?_, ?_, ?_, ?_, ?_, ?_⟩
    · simp [writeErrorEffect, hstep, hrej]
    · simp [writeErrorEffect, hstep, hrej]
    · simp [writeErrorEffect, hstep, hrej]
    · simp [writeErrorEffect, hstep, hrej]
    · simp [handlePaymentCatch, hrej]
    · simp [handlePaymentCatch, hrej]
    · intro hprov
      simp only [handlePaymentCatch, hrej, if_true]
      simpa using hprov
  · intro hrej
    refine ⟨?_, ?_, ?_, ?_, ?_⟩ <;>
      simp [writeErrorEffect, handlePaymentCatch, hstep, hrej]

/-- Witness for C3: a wallet user-rejection message recovers to
confirming, an insufficient-funds message goes to error. -/
theorem c3_user_rejection_recovers_witness :
    (writeErrorEffect (some "User rejected the request") processingPC).step =
        Step.confirming ∧
      (writeErrorEffect (some "insufficient funds for transfer")
        processingPC).step = Step.error :=
  ⟨((c3_user_rejection_recovers processingPC "User rejected the request"
      rfl).1 (by decide)).2.1,
    ((c3_user_rejection_recovers processingPC
      "insufficient funds for transfer" rfl).2 (by decide)).1⟩

/-- The polling loop never touches the error surface: across any prefix
of poll resolutions the error message and the merchant onError count are
unchanged. -/
theorem pollRun_error_frame (outcomes : List PollOutcome) (s : PCState) :
    (pollRun outcomes s).1.errorMessage = s.errorMessage ∧
      (pollRun outcomes s).1.errorCalls = s.errorCalls := by
  induction outcomes generalizing s with
  | nil => exact ⟨rfl, rfl⟩
  | cons o rest ih =>
    cases o with
    | threw msg => simpa [pollRun, pollStep] using ih s
    | ok st =>
      by_cases hf : st.found
      · by_cases hcf : st.isConfirmed.getD false
        · simp [pollRun, pollStep, hf, hcf]
        · simpa [pollRun, pollStep, hf, hcf] using ih _
      · simpa [pollRun, pollStep, hf] using ih s

/-- As long as no resolution is a confirmed status, the loop schedules a
further poll after every prefix. -/
theorem pollRun_keeps_polling (outcomes : List PollOutcome) (s : PCState)
    (hnc : ∀ o ∈ outcomes, pollConfirmed o = false) :
    (pollRun outcomes s).2 = true := by
  induction outcomes generalizing s with
  | nil => rfl
  | cons o rest ih =>
    have ho := hnc o (by simp)
    have hrest : ∀ o ∈ rest, pollConfirmed o = false := by
      intro o' ho'
      exact hnc o' (by simp [ho'])
    cases o with
    | threw msg => simpa [pollRun, pollStep] using ih s hrest
    | ok st =>
      by_cases hf : st.found
      · have hcf : st.isConfirmed.getD false = false := by
          simpa [pollConfirmed, hf] using ho
        simpa [pollRun, pollStep, hf, hcf] using ih _ hrest
      · simpa [pollRun, pollStep, hf] using ih s hrest

/-- C4: every poll resolution that is not a confirmed status — including
a thrown network error, which leaves the state entirely unchanged —
schedules the next poll 3000 ms after the call resolves; a found status
with isConfirmed true moves the step to complete and stops; the loop
never surfaces an error (error message and onError count are invariant)
and never stops on its own (no timeout or cancellation: after any
unconfirmed prefix a further poll is scheduled). -/
theorem c4_confirmation_polling (s : PCState) (msg : String)
    (st : TxStatus) :
    pollStep (PollOutcome.threw msg) s = (s, some 3000) ∧
      (st.found = true → st.isConfirmed = some true →
        (pollStep (PollOutcome.ok st) s).1.step = Step.complete ∧
        (pollStep (PollOutcome.ok st) s).2 = none) ∧
      (pollConfirmed (PollOutcome.ok st) = false →
        (pollStep (PollOutcome.ok st) s).2 = some 3000 ∧
        (pollStep (PollOutcome.ok st) s).1.step = s.step) ∧
      (∀ outcomes : List PollOutcome,
        (∀ o ∈ outcomes, pollConfirmed o = false) →
        (pollRun outcomes s).2 = true) ∧
      (∀ outcomes : List PollOutcome,
        (pollRun outcomes s).1.errorMessage = s.errorMessage ∧
        (pollRun outcomes s).1.errorCalls = s.errorCalls) := by
  refine ⟨rfl, ?_, ?_, fun o hnc => pollRun_keeps_polling o s hnc,
    fun o => pollRun_error_frame o s⟩
  · intro hf hcf
    constructor <;> simp [pollStep, hf, hcf]
  · intro hnc
    by_cases hf : st.found
    · have hcf : st.isConfirmed.getD false = false := by
        simpa [pollConfirmed, hf] using hnc
      constructor <;> simp [pollStep, hf, hcf]
    · constructor <;> simp [pollStep, hf]

/-- Witness for C4: a throw then a pending status keep the loop alive,
and a confirmed status completes it. -/
theorem c4_confirmation_polling_witness :
    pollStep (PollOutcome.threw "network down") demoPC =
        (demoPC, some 3000) ∧
      (pollStep (PollOutcome.ok confirmedStatus) demoPC).1.step =
        Step.complete ∧
      (pollRun [PollOutcome.threw "network down",
        PollOutcome.ok pendingStatus] demoPC).2 = true :=
  ⟨(c4_confirmation_polling demoPC "network down" confirmedStatus).1,
    ((c4_confirmation_polling demoPC "network down" confirmedStatus).2.1
      rfl rfl).1,
    (c4_confirmation_polling demoPC "network down"
      confirmedStatus).2.2.2.1
      [PollOutcome.threw "network down", PollOutcome.ok pendingStatus]
      (by decide)⟩

/-- C10: in the Yours (direct-transfer) path, a sendMNEE resolution
without a transaction id returns the step to confirming and clears the
processing flag, and neither completeSession nor the success callback nor
onError fires; the session, payment result, processed set and polling are
untouched. -/
theorem c10_cancelled_direct_transfer (s : PCState)
    (sess : CheckoutSession) (now : ℕ) (r : Except String Unit)
    (txid : Option String) (walletFound : Bool)
    (hw : optStrTruthy s.walletAddress = true)
    (hs : s.session = some sess) (hfound : walletFound = true)
    (htx : optStrTruthy txid = false) :
    (handlePaymentYours walletFound (SendMneeResult.resolved txid) r now
        s).step = Step.confirming ∧
      (handlePaymentYours walletFound (SendMneeResult.resolved txid) r now
        s).isProcessing = false ∧
      (handlePaymentYours walletFound (SendMneeResult.resolved txid) r now
        s).completeCalls = s.completeCalls ∧
      (handlePaymentYours walletFound (SendMneeResult.resolved txid) r now
        s).successCalls = s.successCalls ∧
      (handlePaymentYours walletFound (SendMneeResult.resolved txid) r now
        s).errorCalls = s.errorCalls ∧
      (handlePaymentYours walletFound (SendMneeResult.resolved txid) r now
        s).session = s.session ∧
      (handlePaymentYours walletFound (SendMneeResult.resolved txid) r now
        s).paymentResult = s.paymentResult ∧
      (handlePaymentYours walletFound (SendMneeResult.resolved txid) r now
        s).processed = s.processed ∧
      (handlePaymentYours walletFound (SendMneeResult.resolved txid) r now
        s).pollStarts = s.pollStarts := by
  subst hfound
  refine ⟨?_, ?_, ?_, ?_, ?_, ?_, ?_, ?_, ?_⟩ <;>
    simp [handlePaymentYours, hw, hs, htx]

/-- Witness for C10 at a concrete connected Yours-wallet state with a
resolution carrying no transaction id. -/
theorem c10_cancelled_direct_transfer_witness :
    (handlePaymentYours true (SendMneeResult.resolved none)
        (Except.ok ()) 7 yoursPC).step = Step.confirming ∧
      (handlePaymentYours true (SendMneeResult.resolved none)
        (Except.ok ()) 7 yoursPC).completeCalls = [] ∧
      (handlePaymentYours true (SendMneeResult.resolved none)
        (Except.ok ()) 7 yoursPC).successCalls = [] := by
  have hm := c10_cancelled_direct_transfer yoursPC demoSession 7
    (Except.ok ()) none true rfl rfl rfl rfl
  exact ⟨hm.1, by simpa using hm.2.2.1, by simpa using hm.2.2.2.1⟩

end MneePay
